import Mathlib

/-!
Verification of the data-quality core of the `datahub-fork` repository.

The Lean definitions below are a shallow embedding of the Python sources:

* `SQLExecutor._is_readonly_sql`, `SQLExecutor._parse_query_result`
  (`ai_assistant/executor.py`);
* `ConnectorRegistry.register_connector`, `ConnectorRegistry.get_connection_string`,
  `ConnectorRegistry._snowflake_source_matches_dataset`,
  `ConnectorRegistry._select_best_source` (`data_quality/connector_registry.py`);
* the profile-based test templates (`data_quality/templates/profile_based.py`);
* `BaseTestTemplate.build_assertion_urn` (`data_quality/templates/base.py`);
* `TestExecutor.execute_tests_for_dataset` (`data_quality/test_executor.py`).

Modelling conventions: Python dictionaries keyed by strings become functions
`String → Option _` or records of optional fields; Python `None` becomes
`Option.none`; numeric strings in configuration are modelled by their numeric
values (`Int` / `ℚ`); floating-point values carry exact rationals extended with
the two infinities (`ExtQ`), which is adequate because the embedded code only
compares such values and never performs rounding-sensitive arithmetic.
Fallible code returns `Except String _`.
-/

/-! ### String helpers (substring and glob matching) -/

/-- Bool test that `p` is a leading segment of `l` (Python `str.startswith`
restricted to character lists). -/
def charsLeadWith : List Char → List Char → Bool
  | [], _ => true
  | _ :: _, [] => false
  | a :: as, b :: bs => a = b && charsLeadWith as bs

/-- Bool test that `needle` occurs contiguously inside `hay`
(Python `keyword in text`). -/
def charsContain : List Char → List Char → Bool
  | needle, [] => charsLeadWith needle []
  | needle, b :: bs => charsLeadWith needle (b :: bs) || charsContain needle bs

theorem charsLeadWith_iff (p l : List Char) :
    charsLeadWith p l = true ↔ p <+: l := by
  induction p generalizing l with
  | nil => simp [charsLeadWith]
  | cons a as ih =>
    cases l with
    | nil => simp [charsLeadWith]
    | cons b bs =>
      simp only [charsLeadWith, Bool.and_eq_true, decide_eq_true_eq, ih,
        List.cons_prefix_cons]

theorem charsContain_iff (n l : List Char) :
    charsContain n l = true ↔ n <:+: l := by
  induction l with
  | nil =>
    simp [charsContain, charsLeadWith_iff, List.prefix_nil, List.infix_nil]
  | cons b bs ih =>
    simp only [charsContain, Bool.or_eq_true, charsLeadWith_iff, ih]
    constructor
    · rintro (h | h)
      · exact h.isInfix
      · exact List.infix_cons h
    · intro h
      rcases h with ⟨s, t, hst⟩
      cases s with
      | nil =>
        left
        exact ⟨t, by simpa using hst⟩
      | cons x xs =>
        right
        refine ⟨xs, t, ?_⟩
        simpa using congrArg List.tail hst

/-! ### C1 — the read-only SQL gate (`SQLExecutor._is_readonly_sql`) -/

/-- The forbidden keyword list of `SQLExecutor._is_readonly_sql`. -/
def forbiddenKeywords : List String :=
  ["INSERT", "UPDATE", "DELETE", "DROP", "CREATE", "ALTER", "TRUNCATE",
   "MERGE", "GRANT", "REVOKE"]

/-- Python `str.upper` on the character list of a string (ASCII-faithful). -/
def pyUpper (l : List Char) : List Char := l.map Char.toUpper

/-- Python `str.strip`: drop whitespace from both ends. -/
def pyStrip (l : List Char) : List Char :=
  ((l.dropWhile Char.isWhitespace).reverse.dropWhile Char.isWhitespace).reverse

/-- Embedding of `SQLExecutor._is_readonly_sql`: upper-case and strip the
statement, reject it when any forbidden keyword occurs anywhere in the text,
then require it to start with `SELECT` or `WITH`. -/
def isReadonlySql (sql : String) : Bool :=
  let sqlUpper := pyStrip (pyUpper sql.data)
  if forbiddenKeywords.any (fun kw => charsContain kw.data sqlUpper) then
    false
  else if !(charsLeadWith "SELECT".data sqlUpper ||
            charsLeadWith "WITH".data sqlUpper) then
    false
  else
    true

example : isReadonlySql "SELECT 1" = true := by rfl
example : isReadonlySql "select * from t" = true := by rfl
example : isReadonlySql "DROP TABLE t" = false := by rfl
example : isReadonlySql "UPDATE t SET x=1" = false := by rfl
example : isReadonlySql "SELECT * FROM t; DELETE FROM t" = false := by rfl

theorem isReadonlySql_characterization (sql : String) :
    isReadonlySql sql = true ↔
      (("SELECT".data <+: pyStrip (pyUpper sql.data)) ∨
       ("WITH".data <+: pyStrip (pyUpper sql.data))) ∧
      ∀ kw ∈ forbiddenKeywords, ¬ (kw.data <:+: pyStrip (pyUpper sql.data)) := by
  unfold isReadonlySql
  dsimp only
  split_ifs with h1 h2
  · obtain ⟨kw, hmem, hc⟩ := List.any_eq_true.mp h1
    rw [charsContain_iff] at hc
    constructor
    · intro h
      exact absurd h (by simp)
    · rintro ⟨-, hall⟩
      exact (hall kw hmem hc).elim
  · rw [Bool.not_eq_true'] at h2
    constructor
    · intro h
      exact absurd h (by simp)
    · rintro ⟨hstart, -⟩
      rcases hstart with hs | hs
      · rw [← charsLeadWith_iff] at hs
        rw [hs] at h2
        exact absurd h2 (by simp)
      · rw [← charsLeadWith_iff] at hs
        rw [hs] at h2
        exact absurd h2 (by simp)
  · have hor' : (charsLeadWith "SELECT".data (pyStrip (pyUpper sql.data)) ||
        charsLeadWith "WITH".data (pyStrip (pyUpper sql.data))) = true := by
      cases hAB : (charsLeadWith "SELECT".data (pyStrip (pyUpper sql.data)) ||
          charsLeadWith "WITH".data (pyStrip (pyUpper sql.data))) with
      | false => exact absurd (by simp [hAB]) h2
      | true => rfl
    have hall : ∀ kw ∈ forbiddenKeywords,
        ¬ (kw.data <:+: pyStrip (pyUpper sql.data)) := by
      intro kw hmem hinf
      exact h1 (List.any_eq_true.mpr ⟨kw, hmem, (charsContain_iff _ _).mpr hinf⟩)
    simp only [Bool.or_eq_true, charsLeadWith_iff] at hor'
    simp only [true_iff]
    exact ⟨hor', hall⟩

/-- C1: `_is_readonly_sql` returns true iff the upper-cased, stripped text
begins with `SELECT` or `WITH` and contains none of the ten forbidden keywords
anywhere as a substring; together with the five concrete examples of the spec. -/
theorem claim_C1_readonly_sql_gate :
    (∀ sql : String,
      isReadonlySql sql = true ↔
        (("SELECT".data <+: pyStrip (pyUpper sql.data)) ∨
         ("WITH".data <+: pyStrip (pyUpper sql.data))) ∧
        ∀ kw ∈ forbiddenKeywords, ¬ (kw.data <:+: pyStrip (pyUpper sql.data))) ∧
    isReadonlySql "SELECT 1" = true ∧
    isReadonlySql "select * from t" = true ∧
    isReadonlySql "DROP TABLE t" = false ∧
    isReadonlySql "UPDATE t SET x=1" = false ∧
    isReadonlySql "SELECT * FROM t; DELETE FROM t" = false :=
  ⟨isReadonlySql_characterization, by rfl, by rfl, by rfl, by rfl, by rfl⟩

/-- Witness for C1: the characterization applied at the concrete statement
`"SELECT 1"`, discharging its two conditions by evaluation. -/
theorem claim_C1_readonly_sql_gate_witness :
    isReadonlySql "SELECT 1" = true :=
  (claim_C1_readonly_sql_gate.1 "SELECT 1").mpr ⟨Or.inl (by decide), by decide⟩

/-! ### Glob-like pattern matching and Snowflake source configs -/

/-- The list of all suffixes of a character list, longest first. -/
def suffixesOf : List Char → List (List Char)
  | [] => [[]]
  | c :: cs => (c :: cs) :: suffixesOf cs

/-- Shell-glob matching over character lists: `*` matches any (possibly empty)
run of characters (a suffix of the value is matched by the remaining pattern),
`?` matches exactly one character, every other character matches itself. Used
both for the spec's glob-like allow/deny patterns and for `fnmatch`-style
dataset patterns. -/
def globMatch : List Char → List Char → Bool
  | [], s => s.isEmpty
  | '*' :: ps, s => (suffixesOf s).any (fun t => globMatch ps t)
  | _ :: _, [] => false
  | p :: ps, c :: cs => (p = '?' || p = c) && globMatch ps cs

theorem suffixesOf_mem_nil (l : List Char) : [] ∈ suffixesOf l := by
  induction l with
  | nil => simp [suffixesOf]
  | cons c cs ih => simp [suffixesOf, ih]

theorem globMatch_star (l : List Char) : globMatch ['*'] l = true := by
  simp [globMatch, suffixesOf_mem_nil l]

/-- Modelled from the spec: the allow/deny pattern filter applied to ingestion
source config levels (the `AllowDenyPattern` class of the datahub library,
which is outside `src/`). A value is accepted when no deny pattern matches it
and at least one allow pattern matches it; patterns are the spec's glob-like
patterns. -/
structure AllowDenyPattern where
  allow : List String
  deny : List String

/-- Modelled from the spec: the default pattern of an absent config level,
which accepts every value. -/
def AllowDenyPattern.allowAll : AllowDenyPattern := ⟨["*"], []⟩

/-- Modelled from the spec: `pattern.allowed(value)` — no deny pattern matches
and some allow pattern matches. -/
def AllowDenyPattern.allowedChars (pat : AllowDenyPattern) (v : List Char) : Bool :=
  pat.deny.all (fun d => !(globMatch d.data v)) &&
  pat.allow.any (fun a => globMatch a.data v)

theorem allowAll_allowedChars (v : List Char) :
    AllowDenyPattern.allowAll.allowedChars v = true := by
  simp [AllowDenyPattern.allowedChars, AllowDenyPattern.allowAll, globMatch_star]

/-- The fields of a Snowflake ingestion-source config blob that the connector
registry consults. `Option.isSome` models key presence in the raw dict; the
pattern fields default to accept-all when absent (the behaviour of
`SnowflakeV2Config.parse_obj`). Secret references are modelled as already
resolved, which is irrelevant to matching and scoring. -/
structure SnowflakeCfg where
  account_id : Option String
  platform_instance : Option String
  database_pattern : Option AllowDenyPattern
  schema_pattern : Option AllowDenyPattern
  table_pattern : Option AllowDenyPattern
  match_fully_qualified_names : Bool

/-- Python `str.split(sep)` for a single-character separator. -/
def splitOnChar (sep : Char) : List Char → List (List Char)
  | [] => [[]]
  | c :: cs =>
    let r := splitOnChar sep cs
    if c = sep then [] :: r
    else
      match r with
      | [] => [[c]]
      | h :: t => (c :: h) :: t

/-- Embedding of `ConnectorRegistry._snowflake_source_matches_dataset`: split
the dataset key on dots; exactly three components are required; then the
database pattern must accept the database, the schema pattern must accept the
schema (qualified as `db.schema` when `match_fully_qualified_names` is set),
and the table pattern must accept `db.schema.table`. -/
def snowflakeSourceMatchesDataset (datasetKey : String) (cfg : SnowflakeCfg) : Bool :=
  match splitOnChar '.' datasetKey.data with
  | [db, schema, table] =>
    (cfg.database_pattern.getD .allowAll).allowedChars db &&
    (cfg.schema_pattern.getD .allowAll).allowedChars
      (if cfg.match_fully_qualified_names then db ++ '.' :: schema else schema) &&
    (cfg.table_pattern.getD .allowAll).allowedChars
      (db ++ '.' :: (schema ++ '.' :: table))
  | _ => false

/-- What it means for an optionally-configured pattern level to accept a
value: an absent pattern accepts everything. -/
def optAccepts (o : Option AllowDenyPattern) (v : List Char) : Prop :=
  match o with
  | none => True
  | some pat => pat.allowedChars v = true

theorem optAccepts_iff (o : Option AllowDenyPattern) (v : List Char) :
    (o.getD .allowAll).allowedChars v = true ↔ optAccepts o v := by
  cases o with
  | none => simp [optAccepts, allowAll_allowedChars]
  | some pat => simp [optAccepts]

/-- The C5 example candidate: `db=["sales"], schema=["*"], table=["*"]`. -/
def exampleSalesCfg : SnowflakeCfg :=
  { account_id := none
    platform_instance := none
    database_pattern := some ⟨["sales"], []⟩
    schema_pattern := some ⟨["*"], []⟩
    table_pattern := some ⟨["*"], []⟩
    match_fully_qualified_names := false }

example : snowflakeSourceMatchesDataset "sales.public.orders" exampleSalesCfg = true := by rfl
example : snowflakeSourceMatchesDataset "finance.public.orders" exampleSalesCfg = false := by rfl

theorem snowflakeMatches_characterization (key : String) (cfg : SnowflakeCfg) :
    snowflakeSourceMatchesDataset key cfg = true ↔
      ∃ db schema table, splitOnChar '.' key.data = [db, schema, table] ∧
        optAccepts cfg.database_pattern db ∧
        optAccepts cfg.schema_pattern
          (if cfg.match_fully_qualified_names then db ++ '.' :: schema else schema) ∧
        optAccepts cfg.table_pattern (db ++ '.' :: (schema ++ '.' :: table)) := by
  rcases h : splitOnChar '.' key.data with _ | ⟨db, _ | ⟨sch, _ | ⟨tbl, _ | rest⟩⟩⟩ <;>
    simp only [snowflakeSourceMatchesDataset, h] <;>
    simp [Bool.and_eq_true, optAccepts_iff, and_assoc]

/-- C5: a Snowflake candidate matches a dataset key iff the key has exactly
three dot-separated components `(db, schema, table)` and each configured
pattern level accepts its component (schema qualified as `db.schema` when
fully-qualified matching is configured, table always as `db.schema.table`),
an absent pattern accepting every value; plus the spec's concrete example:
`db=["sales"], schema=["*"], table=["*"]` matches `sales.public.orders`
and does not match `finance.public.orders`. -/
theorem claim_C5_snowflake_source_matches :
    (∀ (key : String) (cfg : SnowflakeCfg),
      snowflakeSourceMatchesDataset key cfg = true ↔
        ∃ db schema table, splitOnChar '.' key.data = [db, schema, table] ∧
          optAccepts cfg.database_pattern db ∧
          optAccepts cfg.schema_pattern
            (if cfg.match_fully_qualified_names then db ++ '.' :: schema else schema) ∧
          optAccepts cfg.table_pattern (db ++ '.' :: (schema ++ '.' :: table))) ∧
    snowflakeSourceMatchesDataset "sales.public.orders" exampleSalesCfg = true ∧
    snowflakeSourceMatchesDataset "finance.public.orders" exampleSalesCfg = false :=
  ⟨snowflakeMatches_characterization, by rfl, by rfl⟩

/-- Witness for C5: the characterization applied to the example candidate and
the key `sales.public.orders`, with every pattern condition evaluated. -/
theorem claim_C5_snowflake_source_matches_witness :
    snowflakeSourceMatchesDataset "sales.public.orders" exampleSalesCfg = true :=
  (claim_C5_snowflake_source_matches.1 "sales.public.orders" exampleSalesCfg).mpr
    ⟨"sales".data, "public".data, "orders".data, by rfl, by rfl, by rfl, by rfl⟩

/-! ### C4 — source selection (`ConnectorRegistry._select_best_source`) -/

/-- An entry of the ingestion-source catalog as cached by
`_load_ingestion_sources`: a name and the raw config blob. -/
structure IngSource where
  name : String
  config : SnowflakeCfg

/-- Python truthiness of an optional string (`cfg.get(key)` used as a
condition): present and non-empty. -/
def truthyOptStr : Option String → Bool
  | none => false
  | some s => !(s.data.isEmpty)

/-- The score assigned by `_select_best_source` to a matching candidate:
+2 for a truthy `account_id`, +1 for a truthy `platform_instance`, and +1 for
each of the three pattern keys present in the config. -/
def sourceScore (cfg : SnowflakeCfg) : Int :=
  (if truthyOptStr cfg.account_id then 2 else 0) +
  (if truthyOptStr cfg.platform_instance then 1 else 0) +
  (if cfg.database_pattern.isSome then 1 else 0) +
  (if cfg.schema_pattern.isSome then 1 else 0) +
  (if cfg.table_pattern.isSome then 1 else 0)

/-- One iteration of the loop of `_select_best_source`: only the Snowflake
platform computes matches; a matching candidate replaces the accumulator
exactly when its score strictly exceeds the best score so far. -/
def selectStep (platform datasetKey : String) (acc : Option IngSource × Int)
    (src : IngSource) : Option IngSource × Int :=
  if platform = "snowflake" then
    if snowflakeSourceMatchesDataset datasetKey src.config then
      if sourceScore src.config > acc.snd then (some src, sourceScore src.config)
      else acc
    else acc
  else acc

/-- Embedding of `ConnectorRegistry._select_best_source`: fold the loop body
over the candidate list starting from `best = None, best_score = -1`. -/
def selectBestSource (platform datasetKey : String) (sources : List IngSource) :
    Option IngSource :=
  (sources.foldl (selectStep platform datasetKey) (none, -1)).fst

/-- Whether a candidate counts as matching inside `_select_best_source`. -/
def candMatches (platform datasetKey : String) (src : IngSource) : Bool :=
  if platform = "snowflake" then snowflakeSourceMatchesDataset datasetKey src.config
  else false

/-- The first element of maximal `f`-value of a list (earlier elements win
ties); `none` on the empty list. This is the spec-side statement of "highest
score wins, ties broken by catalog order". -/
def firstMaxBy {α : Type} (f : α → Int) : List α → Option α
  | [] => none
  | x :: xs =>
    match firstMaxBy f xs with
    | none => some x
    | some y => if f x ≥ f y then some x else some y

theorem sourceScore_nonneg (cfg : SnowflakeCfg) : 0 ≤ sourceScore cfg := by
  unfold sourceScore
  split_ifs <;> norm_num

theorem selectStep_eq (platform datasetKey : String) (acc : Option IngSource × Int)
    (src : IngSource) :
    selectStep platform datasetKey acc src =
      if candMatches platform datasetKey src then
        (if sourceScore src.config > acc.snd then (some src, sourceScore src.config)
         else acc)
      else acc := by
  unfold selectStep candMatches
  split_ifs <;> simp_all

theorem foldl_selectStep_eq (platform datasetKey : String) (l : List IngSource)
    (b : Option IngSource) (s : Int) :
    (l.foldl (selectStep platform datasetKey) (b, s)).fst =
      match firstMaxBy (fun src => sourceScore src.config)
          (l.filter (candMatches platform datasetKey)) with
      | none => b
      | some y => if sourceScore y.config > s then some y else b := by
  induction l generalizing b s with
  | nil => simp [firstMaxBy]
  | cons x xs ih =>
    rw [List.foldl_cons, selectStep_eq, List.filter_cons]
    by_cases hc : candMatches platform datasetKey x = true
    · simp only [hc, if_true]
      by_cases hs : sourceScore x.config > s
      · simp only [hs, if_true]
        rw [ih]
        cases hfm : firstMaxBy (fun src => sourceScore src.config)
            (xs.filter (candMatches platform datasetKey)) with
        | none => simp [firstMaxBy, hfm, hs]
        | some y =>
          simp only [firstMaxBy, hfm]
          by_cases hxy : sourceScore x.config ≥ sourceScore y.config
          · have : ¬ sourceScore y.config > sourceScore x.config := by omega
            simp [hxy, this, hs]
          · have h1 : sourceScore y.config > sourceScore x.config := by omega
            have h2 : sourceScore y.config > s := by omega
            simp [hxy, h1, h2]
      · simp only [hs, if_false]
        rw [ih]
        cases hfm : firstMaxBy (fun src => sourceScore src.config)
            (xs.filter (candMatches platform datasetKey)) with
        | none => simp [firstMaxBy, hfm, hs]
        | some y =>
          simp only [firstMaxBy, hfm]
          by_cases hxy : sourceScore x.config ≥ sourceScore y.config
          · have h1 : ¬ sourceScore y.config > s := by omega
            have h2 : ¬ sourceScore x.config > s := by omega
            simp [hxy, h1, h2]
          · simp [hxy]
    · simp only [Bool.not_eq_true] at hc
      simp only [hc, Bool.false_eq_true, if_false]
      exact ih b s

theorem firstMaxBy_eq_none {α : Type} (f : α → Int) (l : List α) :
    firstMaxBy f l = none ↔ l = [] := by
  cases l with
  | nil => simp [firstMaxBy]
  | cons x xs =>
    simp only [firstMaxBy]
    cases firstMaxBy f xs with
    | none => simp
    | some y =>
      by_cases h : f x ≥ f y <;> simp [h]

theorem firstMaxBy_spec {α : Type} (f : α → Int) (l : List α) (y : α)
    (h : firstMaxBy f l = some y) : y ∈ l ∧ ∀ t ∈ l, f t ≤ f y := by
  induction l generalizing y with
  | nil => simp [firstMaxBy] at h
  | cons x xs ih =>
    simp only [firstMaxBy] at h
    cases hfm : firstMaxBy f xs with
    | none =>
      rw [hfm] at h
      cases h
      have hxs : xs = [] := (firstMaxBy_eq_none f xs).mp hfm
      subst hxs
      simp
    | some z =>
      rw [hfm] at h
      obtain ⟨hmem, hge⟩ := ih z hfm
      dsimp only at h
      by_cases hxz : f x ≥ f z
      · rw [if_pos hxz] at h
        cases h
        refine ⟨List.mem_cons_self x xs, ?_⟩
        intro t ht
        rcases List.mem_cons.mp ht with rfl | ht
        · exact le_refl _
        · exact le_trans (hge t ht) hxz
      · rw [if_neg hxz] at h
        cases h
        refine ⟨List.mem_cons_of_mem x hmem, ?_⟩
        intro t ht
        rcases List.mem_cons.mp ht with rfl | ht
        · omega
        · exact hge t ht

theorem selectBestSource_eq (platform datasetKey : String) (sources : List IngSource) :
    selectBestSource platform datasetKey sources =
      firstMaxBy (fun src => sourceScore src.config)
        (sources.filter (candMatches platform datasetKey)) := by
  unfold selectBestSource
  rw [foldl_selectStep_eq]
  cases h : firstMaxBy (fun src => sourceScore src.config)
      (sources.filter (candMatches platform datasetKey)) with
  | none => rfl
  | some y =>
    have := sourceScore_nonneg y.config
    have hgt : sourceScore y.config > (-1 : Int) := by omega
    simp [hgt]

/-- C4: `_select_best_source` returns the matching candidate of highest score
(+2 for a truthy `account_id`, +1 for a truthy `platform_instance`, +1 per
explicitly configured pattern level, as recorded in `sourceScore`); ties go to
the first such candidate in catalog order (`firstMaxBy`); `none` is returned
exactly when no candidate matches. -/
theorem claim_C4_select_best_source :
    ∀ (platform datasetKey : String) (sources : List IngSource),
      selectBestSource platform datasetKey sources =
        firstMaxBy (fun src => sourceScore src.config)
          (sources.filter (candMatches platform datasetKey)) ∧
      (selectBestSource platform datasetKey sources = none ↔
        sources.filter (candMatches platform datasetKey) = []) ∧
      ∀ y, selectBestSource platform datasetKey sources = some y →
        y ∈ sources.filter (candMatches platform datasetKey) ∧
        ∀ t ∈ sources.filter (candMatches platform datasetKey),
          sourceScore t.config ≤ sourceScore y.config := by
  intro platform datasetKey sources
  refine ⟨selectBestSource_eq platform datasetKey sources, ?_, ?_⟩
  · rw [selectBestSource_eq]
    exact firstMaxBy_eq_none _ _
  · intro y hy
    rw [selectBestSource_eq] at hy
    exact firstMaxBy_spec _ _ y hy

/-- The C5/C4 example candidate as a catalog entry. -/
def exampleSalesSource : IngSource := ⟨"sales_source", exampleSalesCfg⟩

/-- Witness for C4: on the one-candidate catalog containing the example
source, the selected source is a member of the matching candidates. -/
theorem claim_C4_select_best_source_witness :
    exampleSalesSource ∈
      [exampleSalesSource].filter (candMatches "snowflake" "sales.public.orders") :=
  ((claim_C4_select_best_source "snowflake" "sales.public.orders"
      [exampleSalesSource]).2.2 exampleSalesSource (by rfl)).1

/-! ### C10 — `ConnectorRegistry.register_connector` and registry state -/

/-- An explicit connector config entry (`connectors:` section): the dict
`{"connection_string": ...}`; an absent or empty value models a falsy entry. -/
structure ConnectorConfig where
  connection_string : Option String

/-- The mutable state of a `ConnectorRegistry`: explicit per-platform connector
configs, the per-platform engine cache, the cached ingestion-source map, and
the native Snowflake connection cache. Engine and native-connection handles
are opaque type parameters. -/
structure RegistryState (E N : Type) where
  connector_configs : String → Option ConnectorConfig
  engines : String → Option E
  ingestion_source_cache : Option (String → List IngSource)
  sf_connections : String → Option N

/-- Embedding of `ConnectorRegistry.register_connector`: store
`{"connection_string": connection_string}` under the platform and drop the
platform's cached engine if present. -/
def registerConnector {E N : Type} (s : RegistryState E N)
    (platform connectionString : String) : RegistryState E N :=
  { s with
    connector_configs := fun p =>
      if p = platform then some ⟨some connectionString⟩ else s.connector_configs p
    engines := fun p => if p = platform then none else s.engines p }

/-- C10: `register_connector` sets the platform's config to exactly
`{"connection_string": cs}` and clears the platform's cached engine, while
every other platform's config and engine, the ingestion-source cache and the
native-connection cache are unchanged. -/
theorem claim_C10_register_connector_frame :
    ∀ (E N : Type) (s : RegistryState E N) (platform cs : String),
      (registerConnector s platform cs).connector_configs platform =
        some ⟨some cs⟩ ∧
      (registerConnector s platform cs).engines platform = none ∧
      (∀ q, q ≠ platform →
        (registerConnector s platform cs).connector_configs q =
          s.connector_configs q ∧
        (registerConnector s platform cs).engines q = s.engines q) ∧
      (registerConnector s platform cs).ingestion_source_cache =
        s.ingestion_source_cache ∧
      (registerConnector s platform cs).sf_connections = s.sf_connections := by
  intro E N s platform cs
  refine ⟨?_, ?_, ?_, rfl, rfl⟩
  · simp [registerConnector]
  · simp [registerConnector]
  · intro q hq
    constructor <;> simp [registerConnector, hq]

/-- An empty registry state over trivial handle types, for concrete witnesses. -/
def emptyRegistryState : RegistryState Unit Unit :=
  ⟨fun _ => none, fun _ => none, none, fun _ => none⟩

/-- Witness for C10: registering a Snowflake connector on the empty registry
leaves the `mysql` entries untouched. -/
theorem claim_C10_register_connector_frame_witness :
    (registerConnector emptyRegistryState "snowflake" "snowflake://x").connector_configs
        "mysql" = emptyRegistryState.connector_configs "mysql" ∧
    (registerConnector emptyRegistryState "snowflake" "snowflake://x").engines
        "mysql" = emptyRegistryState.engines "mysql" :=
  (claim_C10_register_connector_frame Unit Unit emptyRegistryState "snowflake"
    "snowflake://x").2.2.1 "mysql" (by decide)

/-! ### C3 — connection-string resolution (`get_connection_string`) -/

/-- Helper for `splitOnSeq`: scan the text one character at a time, keeping the
current segment reversed in `cur`; cut a segment as soon as it ends with the
separator. -/
def splitOnSeqAux (sep : List Char) : List Char → List Char → List (List Char)
  | [], cur => [cur.reverse]
  | c :: cs, cur =>
    if charsLeadWith sep.reverse (c :: cur) then
      ((c :: cur).drop sep.length).reverse :: splitOnSeqAux sep cs []
    else
      splitOnSeqAux sep cs (c :: cur)

/-- Python `str.split(sep)` for a non-empty multi-character separator
(leftmost occurrences split first). -/
def splitOnSeq (sep l : List Char) : List (List Char) := splitOnSeqAux sep l []

example : splitOnSeq "aa".data "xaayaaz".data = ["x".data, "y".data, "z".data] := by rfl
example : splitOnSeq "aa".data "aaa".data = ["".data, "a".data] := by rfl

/-- Embedding of `ConnectorRegistry._extract_platform_from_urn`: require the
token `dataPlatform:` to occur, take the text after its first occurrence up to
the next occurrence, and cut at the first comma. -/
def extractPlatformFromUrn (datasetUrn : String) : Option String :=
  if charsContain "dataPlatform:".data datasetUrn.data then
    match splitOnSeq "dataPlatform:".data datasetUrn.data with
    | _ :: p :: _ => some (String.mk ((splitOnChar ',' p).headD []))
    | _ => none
  else none

example :
    extractPlatformFromUrn "urn:li:dataset:(urn:li:dataPlatform:mysql,db.table,PROD)" =
      some "mysql" := by rfl
example : extractPlatformFromUrn "urn:li:dataset:nope" = none := by rfl

/-- The environment key consulted by the third resolution tier:
`f"{platform.upper()}_DATAHUB_CONNECTION_STRING"`. -/
def envVarName (platform : String) : String :=
  String.mk (pyUpper platform.data) ++ "_DATAHUB_CONNECTION_STRING"

/-- What the first resolution tier produces: the explicit connector config's
connection string when the config exists and the string is truthy. -/
def tier1Value (connectorConfigs : String → Option ConnectorConfig)
    (platform : String) : Option String :=
  match connectorConfigs platform with
  | some cc => if truthyOptStr cc.connection_string then cc.connection_string else none
  | none => none

/-- Python truthiness filter on `os.getenv`: an empty or absent value counts as
nothing. -/
def envTruthy (o : Option String) : Option String :=
  match o with
  | some s => if s.data.isEmpty then none else some s
  | none => none

/-- Embedding of `ConnectorRegistry.get_connection_string`. The cached
ingestion-source map is the `ingestionSources` input; building a connection
string from a source config (a call into the datahub library) is the
`buildConnStr` oracle; `env` is the process environment. Mirrors the source:
a falsy extracted platform (`if not platform: return None`, so also the empty
string) resolves to nothing at once; tier 1 is the explicit config when
truthy; otherwise, when the platform has catalog sources, the build result of
the first source is returned directly; only a platform with no catalog
sources consults the environment. -/
def getConnectionString (connectorConfigs : String → Option ConnectorConfig)
    (ingestionSources : String → List IngSource)
    (buildConnStr : String → SnowflakeCfg → Option String)
    (env : String → Option String)
    (datasetUrn : String) : Option String :=
  match extractPlatformFromUrn datasetUrn with
  | none => none
  | some platform =>
    if platform.data.isEmpty then none
    else
      let tier2 : Option String :=
        match ingestionSources platform with
        | src :: _ => buildConnStr platform src.config
        | [] => envTruthy (env (envVarName platform))
      match connectorConfigs platform with
      | some cc =>
        if truthyOptStr cc.connection_string then cc.connection_string else tier2
      | none => tier2

/-- A Snowflake source config with no optional field set. -/
def emptySfCfg : SnowflakeCfg := ⟨none, none, none, none, none, false⟩

/-- Counterexample catalog for C3: one Snowflake source exists. -/
def exSourcesC3 : String → List IngSource :=
  fun p => if p = "snowflake" then [⟨"sf_prod", emptySfCfg⟩] else []

/-- Counterexample environment for C3: both the key the code actually reads
(`SNOWFLAKE_DATAHUB_CONNECTION_STRING`) and the key named by the claim
(`SNOWFLAKE_CONNECTION_STRING`) are set. -/
def exEnvC3 : String → Option String := fun name =>
  if name = "SNOWFLAKE_DATAHUB_CONNECTION_STRING" then some "snowflake://from-env"
  else if name = "SNOWFLAKE_CONNECTION_STRING" then some "snowflake://from-env2"
  else none

def exUrnC3 : String := "urn:li:dataset:(urn:li:dataPlatform:snowflake,db.sch.tbl,PROD)"

/-- Counterexample for C3: with no explicit config, one catalog source whose
connection-string build fails, and the environment fallback set (under both
possible key spellings), the code returns `None` — so the environment tier is
not tried whenever the earlier tiers produce nothing, and `None` can be
returned even though tier 3 would produce a value. -/
theorem claim_C3_counterexample_env_tier_skipped :
    getConnectionString (fun _ => none) exSourcesC3 (fun _ _ => none) exEnvC3
      exUrnC3 = none ∧
    envTruthy (exEnvC3 (envVarName "snowflake")) = some "snowflake://from-env" ∧
    envTruthy (exEnvC3 "SNOWFLAKE_CONNECTION_STRING") = some "snowflake://from-env2" ∧
    extractPlatformFromUrn exUrnC3 = some "snowflake" ∧
    exSourcesC3 "snowflake" ≠ [] :=
  ⟨by rfl, by rfl, by rfl, by rfl, by simp [exSourcesC3, emptySfCfg]⟩

theorem getConnectionString_characterization :
    ∀ (connectorConfigs : String → Option ConnectorConfig)
      (ingestionSources : String → List IngSource)
      (buildConnStr : String → SnowflakeCfg → Option String)
      (env : String → Option String) (datasetUrn : String),
      getConnectionString connectorConfigs ingestionSources buildConnStr env
          datasetUrn =
        match extractPlatformFromUrn datasetUrn with
        | none => none
        | some platform =>
          if platform.data.isEmpty then none
          else
            match tier1Value connectorConfigs platform with
            | some s => some s
            | none =>
              match ingestionSources platform with
              | src :: _ => buildConnStr platform src.config
              | [] => envTruthy (env (envVarName platform)) := by
  intro connectorConfigs ingestionSources buildConnStr env datasetUrn
  unfold getConnectionString tier1Value
  cases hx : extractPlatformFromUrn datasetUrn with
  | none => rfl
  | some p =>
    dsimp only
    by_cases hp : p.data.isEmpty = true
    · simp [hp]
    · simp only [hp, Bool.false_eq_true, if_false]
      cases hc : connectorConfigs p with
      | none => rfl
      | some cc =>
        cases hs : cc.connection_string with
        | none => simp [truthyOptStr, hs]
        | some str =>
          by_cases ht : str.data.isEmpty = true
          · simp [truthyOptStr, hs, ht]
          · simp [truthyOptStr, hs, ht]

/-- C3 (amended): a falsy (missing or empty) extracted platform resolves to
nothing immediately; otherwise resolution tries the explicit connector config
first; when that produces nothing, the catalog tier — when the platform has
any catalog source, the build result of its first source is returned
directly, even when building fails; only a platform with no catalog sources
consults the environment fallback, whose key is
`{PLATFORM}_DATAHUB_CONNECTION_STRING`. -/
theorem claim_C3_connection_resolution :
    (∀ (connectorConfigs : String → Option ConnectorConfig)
      (ingestionSources : String → List IngSource)
      (buildConnStr : String → SnowflakeCfg → Option String)
      (env : String → Option String) (datasetUrn : String),
      getConnectionString connectorConfigs ingestionSources buildConnStr env
          datasetUrn =
        match extractPlatformFromUrn datasetUrn with
        | none => none
        | some platform =>
          if platform.data.isEmpty then none
          else
            match tier1Value connectorConfigs platform with
            | some s => some s
            | none =>
              match ingestionSources platform with
              | src :: _ => buildConnStr platform src.config
              | [] => envTruthy (env (envVarName platform))) ∧
    (∀ (connectorConfigs : String → Option ConnectorConfig)
      (ingestionSources : String → List IngSource)
      (buildConnStr : String → SnowflakeCfg → Option String)
      (env : String → Option String),
      getConnectionString connectorConfigs ingestionSources buildConnStr env
        "urn:li:dataset:(urn:li:dataPlatform:,db.sch.tbl,PROD)" = none) := by
  refine ⟨getConnectionString_characterization, ?_⟩
  intro connectorConfigs ingestionSources buildConnStr env
  rw [getConnectionString_characterization]
  rfl

/-! ### Profile-based test templates (`templates/profile_based.py`) -/

/-- Rationals extended with the two infinities: the float values the between
tests build via `float("-inf")` / `float("inf")` and numeric parameters. The
embedded code only compares such values, never rounds. -/
inductive ExtQ
  | ninf
  | fin (q : ℚ)
  | pinf
deriving DecidableEq

/-- Comparison of extended rationals (IEEE comparison semantics on
non-NaN values). -/
def ExtQ.lee : ExtQ → ExtQ → Bool
  | .ninf, _ => true
  | .fin _, .ninf => false
  | .fin a, .fin b => a ≤ b
  | .fin _, .pinf => true
  | .pinf, .pinf => true
  | .pinf, _ => false

/-- The typed view of a test's `params` dict (`Dict[str, str]` in the source);
numeric strings are modelled by their parsed numeric values, an absent key by
`none`. -/
structure TestParams where
  min_rows : Option Int := none
  max_rows : Option Int := none
  value : Option Int := none
  min_value : Option ℚ := none
  max_value : Option ℚ := none
deriving DecidableEq

/-- A per-column entry of a cached dataset profile
(`DatasetFieldProfileClass`), restricted to the statistics the embedded tests
read. -/
structure FieldProfile where
  fieldPath : String
  nullCount : Option Int := none
  uniqueCount : Option Int := none
  min : Option ℚ := none
  max : Option ℚ := none
  mean : Option ℚ := none
  median : Option ℚ := none
  stdev : Option ℚ := none
deriving DecidableEq

/-- A cached dataset profile (`DatasetProfileClass`), restricted to the fields
the embedded tests read. -/
structure DatasetProfile where
  rowCount : Option Int := none
  columnCount : Option Int := none
  timestampMillis : Option Int := none
  fieldProfiles : Option (List FieldProfile) := none
deriving DecidableEq

/-- The `TestResult` dataclass of `templates/base.py`. `actual_value` carries
the numeric content of the rendered string. -/
structure TestResult where
  success : Bool
  actual_value : Option ℚ := none
  row_count : Option Int := none
  native_results : List (String × String) := []
deriving DecidableEq

/-- The field-profile lookup
`next((fp for fp in profile.fieldProfiles if fp.fieldPath == self.column), None)`;
a `None` column matches nothing. -/
def findFieldProfile (fps : List FieldProfile) (column : Option String) :
    Option FieldProfile :=
  fps.find? (fun fp => column == some fp.fieldPath)

/-- Embedding of `TableRowCountTest.execute`: missing profile or row count is
a failure with a diagnostic; otherwise `min_rows` defaults to 0 and `max_rows`
is unconstrained when absent, both bounds inclusive. -/
def tableRowCount_execute (params : TestParams) (profile : Option DatasetProfile) :
    TestResult :=
  match profile with
  | none =>
    ⟨false, none, none,
      [("error", "Profile data not available or row count is missing")]⟩
  | some pr =>
    match pr.rowCount with
    | none =>
      ⟨false, none, none,
        [("error", "Profile data not available or row count is missing")]⟩
    | some actualRowCount =>
      let minRows := params.min_rows.getD 0
      let success :=
        match params.max_rows with
        | none => decide (actualRowCount ≥ minRows)
        | some m => decide (actualRowCount ≥ minRows) && decide (actualRowCount ≤ m)
      ⟨success, some (actualRowCount : ℚ), some actualRowCount,
        [("actual_row_count", toString actualRowCount),
         ("min_rows", toString minRows),
         ("status", if success then "PASS" else "FAIL")]⟩

/-- Embedding of `ColumnValuesNotNullTest.execute`. -/
def columnValuesNotNull_execute (column : Option String)
    (profile : Option DatasetProfile) : TestResult :=
  match profile with
  | none => ⟨false, none, none, [("error", "Profile data not available")]⟩
  | some pr =>
    if (pr.fieldProfiles.getD []).isEmpty then
      ⟨false, none, none, [("error", "Profile data not available")]⟩
    else
      match findFieldProfile (pr.fieldProfiles.getD []) column with
      | none => ⟨false, none, none, [("error", "Column not found in profile")]⟩
      | some fp =>
        match fp.nullCount with
        | none => ⟨false, none, none, [("error", "Column not found in profile")]⟩
        | some nullCount =>
          let success := decide (nullCount = 0)
          ⟨success, some (nullCount : ℚ), none,
            [("null_count", toString nullCount),
             ("status", if success then "PASS" else "FAIL")]⟩

/-- Embedding of `ColumnMinBetweenTest.execute`: an absent bound parameter
defaults to `float("-inf")` / `float("inf")`. -/
def columnMinBetween_execute (params : TestParams) (column : Option String)
    (profile : Option DatasetProfile) : TestResult :=
  match profile with
  | none => ⟨false, none, none, [("error", "Profile data not available")]⟩
  | some pr =>
    if (pr.fieldProfiles.getD []).isEmpty then
      ⟨false, none, none, [("error", "Profile data not available")]⟩
    else
      match findFieldProfile (pr.fieldProfiles.getD []) column with
      | none => ⟨false, none, none, [("error", "Min value not available")]⟩
      | some fp =>
        match fp.min with
        | none => ⟨false, none, none, [("error", "Min value not available")]⟩
        | some actualMin =>
          let minV := (params.min_value.map ExtQ.fin).getD ExtQ.ninf
          let maxV := (params.max_value.map ExtQ.fin).getD ExtQ.pinf
          let success := ExtQ.lee minV (ExtQ.fin actualMin) &&
            ExtQ.lee (ExtQ.fin actualMin) maxV
          ⟨success, some actualMin, none,
            [("status", if success then "PASS" else "FAIL")]⟩

/-- Embedding of `ColumnStddevBetweenTest.execute`: unlike the other between
tests, an absent `min_value` defaults to `0` (the source's
`float(self.params.get("min_value", 0))`), while an absent `max_value`
defaults to `float("inf")`. -/
def columnStddevBetween_execute (params : TestParams) (column : Option String)
    (profile : Option DatasetProfile) : TestResult :=
  match profile with
  | none => ⟨false, none, none, [("error", "Profile data not available")]⟩
  | some pr =>
    if (pr.fieldProfiles.getD []).isEmpty then
      ⟨false, none, none, [("error", "Profile data not available")]⟩
    else
      match findFieldProfile (pr.fieldProfiles.getD []) column with
      | none => ⟨false, none, none, [("error", "Standard deviation not available")]⟩
      | some fp =>
        match fp.stdev with
        | none => ⟨false, none, none, [("error", "Standard deviation not available")]⟩
        | some actualStdev =>
          let minV := (params.min_value.map ExtQ.fin).getD (ExtQ.fin 0)
          let maxV := (params.max_value.map ExtQ.fin).getD ExtQ.pinf
          let success := ExtQ.lee minV (ExtQ.fin actualStdev) &&
            ExtQ.lee (ExtQ.fin actualStdev) maxV
          ⟨success, some actualStdev, none,
            [("status", if success then "PASS" else "FAIL")]⟩

/-- Embedding of `ColumnUniqueProportionBetweenTest.execute`: a zero row count
defines the proportion as `0.0` instead of dividing; bounds default to `0.0`
and `1.0`. -/
def columnUniqueProportionBetween_execute (params : TestParams)
    (column : Option String) (profile : Option DatasetProfile) : TestResult :=
  match profile with
  | none => ⟨false, none, none, [("error", "Profile data not available")]⟩
  | some pr =>
    if (pr.fieldProfiles.getD []).isEmpty || pr.rowCount.isNone then
      ⟨false, none, none, [("error", "Profile data not available")]⟩
    else
      match findFieldProfile (pr.fieldProfiles.getD []) column with
      | none => ⟨false, none, none, [("error", "Unique count not available")]⟩
      | some fp =>
        match fp.uniqueCount with
        | none => ⟨false, none, none, [("error", "Unique count not available")]⟩
        | some u =>
          let rc := pr.rowCount.getD 0
          let uniqueProportion : ℚ := if rc > 0 then (u : ℚ) / (rc : ℚ) else 0
          let minV := params.min_value.getD 0
          let maxV := params.max_value.getD 1
          let success := decide (minV ≤ uniqueProportion) &&
            decide (uniqueProportion ≤ maxV)
          ⟨success, some uniqueProportion, none,
            [("unique_count", toString u),
             ("row_count", toString rc),
             ("status", if success then "PASS" else "FAIL")]⟩

/-- A profile carrying only a row count. -/
def mkRowProfile (n : Int) : DatasetProfile := { rowCount := some n }

/-- A profile with one field profile carrying a column minimum. -/
def mkMinProfile (col : String) (q : ℚ) : DatasetProfile :=
  { rowCount := some 100, fieldProfiles := some [{ fieldPath := col, min := some q }] }

/-- A profile with one field profile carrying a column standard deviation. -/
def mkStddevProfile (col : String) (q : ℚ) : DatasetProfile :=
  { rowCount := some 100, fieldProfiles := some [{ fieldPath := col, stdev := some q }] }

/-- Counterexample for C7: with no bound parameters configured, a (synthetic)
negative standard deviation fails `column_stddev_between` — its absent lower
bound defaults to 0, not to −∞ — while the same situation passes
`column_min_between`, whose absent lower bound really is −∞. -/
theorem claim_C7_counterexample_stddev_default_zero :
    (columnStddevBetween_execute {} (some "age")
      (some (mkStddevProfile "age" (-1)))).success = false ∧
    (columnMinBetween_execute {} (some "age")
      (some (mkMinProfile "age" (-1)))).success = true :=
  ⟨by rfl, by rfl⟩

/-- C7 (amended): `table_row_count` with `min_rows=500, max_rows=2000` accepts
row counts 1000 and 500 (inclusive) and rejects 2001; `column_min_between`
treats an absent lower bound as −∞ and an absent upper bound as +∞ (with no
bounds configured every value passes; with only an upper bound `m` the result
is exactly `value ≤ m`); `column_stddev_between` instead defaults an absent
lower bound to 0 (the result with no bounds configured is exactly `0 ≤ value`),
its absent upper bound still being +∞. -/
theorem claim_C7_bound_semantics :
    (tableRowCount_execute { min_rows := some 500, max_rows := some 2000 }
      (some (mkRowProfile 1000))).success = true ∧
    (tableRowCount_execute { min_rows := some 500, max_rows := some 2000 }
      (some (mkRowProfile 500))).success = true ∧
    (tableRowCount_execute { min_rows := some 500, max_rows := some 2000 }
      (some (mkRowProfile 2001))).success = false ∧
    (∀ (col : String) (q : ℚ),
      (columnMinBetween_execute {} (some col) (some (mkMinProfile col q))).success
        = true) ∧
    (∀ (col : String) (q m : ℚ),
      (columnMinBetween_execute { max_value := some m } (some col)
        (some (mkMinProfile col q))).success = decide (q ≤ m)) ∧
    (∀ (col : String) (q : ℚ),
      (columnStddevBetween_execute {} (some col)
        (some (mkStddevProfile col q))).success = decide ((0 : ℚ) ≤ q)) := by
  refine ⟨by rfl, by rfl, by rfl, ?_, ?_, ?_⟩
  · intro col q
    simp [columnMinBetween_execute, mkMinProfile, findFieldProfile, List.find?,
      ExtQ.lee]
  · intro col q m
    simp [columnMinBetween_execute, mkMinProfile, findFieldProfile, List.find?,
      ExtQ.lee]
  · intro col q
    simp [columnStddevBetween_execute, mkStddevProfile, findFieldProfile,
      List.find?, ExtQ.lee]

/-- C8: on any profile with `rowCount = 0` whose field profile for the
configured column carries a unique count, `column_unique_proportion_between`
with default parameters reports proportion `0` (taking the guarded branch, not
the division) and succeeds. -/
theorem claim_C8_unique_proportion_zero_rows :
    ∀ (pr : DatasetProfile) (col : String) (fp : FieldProfile) (u : Int),
      pr.rowCount = some 0 →
      findFieldProfile (pr.fieldProfiles.getD []) (some col) = some fp →
      fp.uniqueCount = some u →
      (columnUniqueProportionBetween_execute {} (some col) (some pr)).success
          = true ∧
      (columnUniqueProportionBetween_execute {} (some col) (some pr)).actual_value
          = some 0 := by
  intro pr col fp u hrc hfind huc
  have hfps : ((pr.fieldProfiles.getD []).isEmpty) = false := by
    cases hl : pr.fieldProfiles.getD [] with
    | nil =>
      rw [hl] at hfind
      simp [findFieldProfile] at hfind
    | cons a l => simp
  simp [columnUniqueProportionBetween_execute, hfps, hrc, hfind, huc]

/-- A concrete zero-row profile for the C8 witness. -/
def zeroRowProfile : DatasetProfile :=
  { rowCount := some 0,
    fieldProfiles := some [{ fieldPath := "user_id", uniqueCount := some 0 }] }

/-- Witness for C8: the theorem applied to the concrete zero-row profile. -/
theorem claim_C8_unique_proportion_zero_rows_witness :
    (columnUniqueProportionBetween_execute {} (some "user_id")
      (some zeroRowProfile)).success = true ∧
    (columnUniqueProportionBetween_execute {} (some "user_id")
      (some zeroRowProfile)).actual_value = some 0 :=
  claim_C8_unique_proportion_zero_rows zeroRowProfile "user_id"
    { fieldPath := "user_id", uniqueCount := some 0 } 0 (by rfl) (by rfl) (by rfl)

/-! ### C6 — query result normalization (`SQLExecutor._parse_query_result`) -/

/-- A Python value as it appears in a query result cell. -/
inductive PyVal
  | vint (i : Int)
  | vbool (b : Bool)
  | vfloat (q : ℚ)
  | vstr (s : String)
  | vnone
deriving DecidableEq

/-- The shapes the `result` argument of `_parse_query_result` can take:
`None`, a list of rows (each row the value list of its dict), a bare scalar,
or anything else (carried as its `str()` rendering). -/
inductive QueryResult
  | qnone
  | qrows (rows : List (List PyVal))
  | qint (i : Int)
  | qfloat (q : ℚ)
  | qbool (b : Bool)
  | qother (rendered : String)

/-- The metrics dictionary assembled by `_parse_query_result`. -/
structure QueryMetrics where
  row_count : Option Nat := none
  result_value : Option PyVal := none
  raw_result : Option String := none
deriving DecidableEq

/-- The pass/fail rule of the single-scalar branch:
`bool(value) if isinstance(value, (int, bool)) else True`. Python floats are
not caught by that `isinstance` test, so a float scalar always passes. -/
def pyTruthyIntBool : PyVal → Bool
  | .vint i => decide (i ≠ 0)
  | .vbool b => b
  | _ => true

/-- Embedding of `SQLExecutor._parse_query_result`. The surrounding
`try/except` makes the Python function total towards its caller; the embedding
is total outright. -/
def parseQueryResult (result : QueryResult) (rowLimit : Nat) :
    Bool × QueryMetrics :=
  match result with
  | .qnone => (true, { row_count := some 0 })
  | .qrows rows =>
    if rows.length = 1 && (rows.headD []).length = 1 then
      let value := (rows.headD []).headD .vnone
      (pyTruthyIntBool value,
        { row_count := some (min rows.length rowLimit),
          result_value := some value })
    else
      (decide (rows.length = 0), { row_count := some (min rows.length rowLimit) })
  | .qint i => (decide (i ≠ 0), { result_value := some (.vint i) })
  | .qfloat q => (decide (q ≠ 0), { result_value := some (.vfloat q) })
  | .qbool b => (b, { result_value := some (.vbool b) })
  | .qother rendered => (true, { raw_result := some rendered })

/-- Whether a value counts as numeric or boolean in the claim's sense
(Python `int`, `float`, `bool`). -/
def isNumericOrBool : PyVal → Bool
  | .vint _ => true
  | .vbool _ => true
  | .vfloat _ => true
  | _ => false

/-- Full Python truthiness of a value. -/
def pyTruthy : PyVal → Bool
  | .vint i => decide (i ≠ 0)
  | .vbool b => b
  | .vfloat q => decide (q ≠ 0)
  | .vstr s => !(s.data.isEmpty)
  | .vnone => false

/-- Counterexample for C6: a single-row, single-column result holding the
float `0.0` — a numeric scalar whose truthiness is false — is parsed as
`passed = true`, because the code's `isinstance(value, (int, bool))` test does
not catch floats; the claim predicts `passed = false` for falsy numeric
scalars. -/
theorem claim_C6_counterexample_float_scalar :
    isNumericOrBool (.vfloat 0) = true ∧
    pyTruthy (.vfloat 0) = false ∧
    (parseQueryResult (.qrows [[.vfloat 0]]) 1000).fst = true :=
  ⟨by rfl, by decide, by rfl⟩

/-- C6 (amended): `None` and zero rows parse as passed with `row_count = 0`; a
single-row single-column result takes the scalar as the result value and
passes or fails by its truthiness only when the scalar is an integer or a
boolean — float, string and `None` scalars always pass; more than one row, or
one row with more than one column, parses as `passed = (row count = 0)`,
i.e. failed; a bare scalar passes by truthiness; an unrecognized shape passes
with its rendering recorded; the function is total (never raises). -/
theorem claim_C6_parse_query_result :
    (∀ limit : Nat, parseQueryResult .qnone limit = (true, { row_count := some 0 })) ∧
    (∀ limit : Nat, parseQueryResult (.qrows []) limit =
      (true, { row_count := some 0 })) ∧
    (∀ (i : Int) (limit : Nat),
      (parseQueryResult (.qrows [[.vint i]]) limit).fst = decide (i ≠ 0)) ∧
    (∀ (b : Bool) (limit : Nat),
      (parseQueryResult (.qrows [[.vbool b]]) limit).fst = b) ∧
    (∀ (q : ℚ) (limit : Nat),
      (parseQueryResult (.qrows [[.vfloat q]]) limit).fst = true) ∧
    (∀ (s : String) (limit : Nat),
      (parseQueryResult (.qrows [[.vstr s]]) limit).fst = true) ∧
    (∀ (v : PyVal) (limit : Nat),
      (parseQueryResult (.qrows [[v]]) limit).snd.result_value = some v) ∧
    (∀ (rows : List (List PyVal)) (limit : Nat), 2 ≤ rows.length →
      (parseQueryResult (.qrows rows) limit).fst = false) ∧
    (∀ (row : List PyVal) (limit : Nat), row.length ≠ 1 →
      (parseQueryResult (.qrows [row]) limit).fst = false) ∧
    (∀ (rendered : String) (limit : Nat),
      parseQueryResult (.qother rendered) limit =
        (true, { raw_result := some rendered })) := by
  refine ⟨fun _ => rfl, fun limit => by simp [parseQueryResult], ?_, ?_, ?_, ?_, ?_,
    ?_, ?_, fun _ _ => rfl⟩
  · intro i limit
    simp [parseQueryResult, pyTruthyIntBool]
  · intro b limit
    simp [parseQueryResult, pyTruthyIntBool]
  · intro q limit
    simp [parseQueryResult, pyTruthyIntBool]
  · intro s limit
    simp [parseQueryResult, pyTruthyIntBool]
  · intro v limit
    simp [parseQueryResult]
  · intro rows limit hlen
    have hx : rows.length ≠ 1 := by omega
    have hz : rows.length ≠ 0 := by omega
    simp [parseQueryResult, hx, hz]
  · intro row limit hrow
    simp [parseQueryResult, hrow]

/-- Witness for C6: a two-row result parses as failed, by the multi-row clause
of the theorem at a concrete input. -/
theorem claim_C6_parse_query_result_witness :
    (parseQueryResult (.qrows [[.vint 1], [.vint 2]]) 10).fst = false :=
  claim_C6_parse_query_result.2.2.2.2.2.2.2.1 [[.vint 1], [.vint 2]] 10 (by decide)

/-! ### C9 — deterministic assertion URNs (`BaseTestTemplate.build_assertion_urn`) -/

/-- Serialization of an optional integer parameter. -/
def encOptInt : Option Int → String
  | none => "null"
  | some i => toString i

/-- Serialization of an optional rational parameter. -/
def encOptRat : Option ℚ → String
  | none => "null"
  | some q => toString q.num ++ "/" ++ toString q.den

/-- Injective serialization of a params dict. -/
def encParams (p : TestParams) : String :=
  "(min_rows=" ++ encOptInt p.min_rows ++ ",max_rows=" ++ encOptInt p.max_rows ++
  ",value=" ++ encOptInt p.value ++ ",min_value=" ++ encOptRat p.min_value ++
  ",max_value=" ++ encOptRat p.max_value ++ ")"

/-- Modelled from the spec: `builder.make_schema_field_urn` (datahub library,
outside `src/`) — the deterministic schema-field URN of a dataset and column. -/
def makeSchemaFieldUrn (datasetUrn fieldPath : String) : String :=
  "urn:li:schemaField:(" ++ datasetUrn ++ "," ++ fieldPath ++ ")"

/-- Modelled from the spec: the composition
`make_assertion_urn(datahub_guid(pre_json_transform(key)))` of the datahub
library (outside `src/`): a deterministic digest of the key dictionary
`(platform, nativeType, nativeParameters, dataset, fields)`. The claims depend
on determinism, not on the hash value, so the digest is modelled as an
injective serialization of the same key. -/
def datahubGuidUrn (platform nativeType : String) (nativeParameters : TestParams)
    (dataset : String) (fields : Option (List String)) : String :=
  "urn:li:assertion:" ++ platform ++ "|" ++ nativeType ++ "|" ++
  encParams nativeParameters ++ "|" ++ dataset ++ "|" ++
  (match fields with
   | none => "null"
   | some fs => String.intercalate "," fs)

/-- The per-instance state set up by `BaseTestTemplate.__init__`. -/
structure TemplateState where
  test_name : String
  dataset_urn : String
  params : TestParams
  column : Option String

/-- `self.field_urn`: built from the dataset URN and the column when the
column is truthy, `None` otherwise. -/
def TemplateState.field_urn (t : TemplateState) : Option String :=
  match t.column with
  | some c => if c.data.isEmpty then none else some (makeSchemaFieldUrn t.dataset_urn c)
  | none => none

/-- Embedding of `BaseTestTemplate.build_assertion_urn`: the guid key holds the
fixed platform namespace, the native test type, the params, the dataset URN
and the field URN list (absent when there is no field URN); the test name,
the profile and any execution context are not part of the key. -/
def buildAssertionUrn (testType : String) (t : TemplateState) : String :=
  datahubGuidUrn "data-quality" testType t.params t.dataset_urn
    (match t.field_urn with
     | none => none
     | some fu => some [fu])

/-! ### C2 — batch execution (`TestExecutor.execute_tests_for_dataset`) -/

/-- The two assertion aspects a test emits: the definition aspect
(`AssertionInfo`) and the result aspect (`AssertionRunEvent`, carrying the
emission timestamp). -/
inductive AssertionAspect
  | infoA (nativeType : String)
  | resultA (timestampMillis : Int) (result : TestResult)
deriving DecidableEq

/-- A `MetadataChangeProposalWrapper` restricted to the fields the claims
read. -/
structure MCP where
  entityUrn : String
  aspect : AssertionAspect
deriving DecidableEq

/-- A configured test (`TestConfig` of `data_quality/config.py`). -/
structure TestConfig where
  name : String
  type : String
  dataset_pattern : String
  column : Option String := none
  params : TestParams := {}

/-- A registry entry: the validator class for one test type. `requiresColumn`
models the constructor guard `if not self.column: raise ValueError(...)` of
the column-scoped templates; `run` is the (total) `execute` method. -/
structure TestClass where
  testType : String
  requiresColumn : Bool
  run : TestParams → Option String → Option DatasetProfile → TestResult

/-- The `TEST_REGISTRY` table restricted to the templates embedded here; the
batch-level theorems are stated for an arbitrary registry. -/
def testRegistry : String → Option TestClass := fun ty =>
  if ty = "table_row_count" then
    some ⟨"table_row_count", false, fun p _ prof => tableRowCount_execute p prof⟩
  else if ty = "column_values_not_null" then
    some ⟨"column_values_not_null", true, fun _ col prof =>
      columnValuesNotNull_execute col prof⟩
  else if ty = "column_min_between" then
    some ⟨"column_min_between", true, columnMinBetween_execute⟩
  else if ty = "column_stddev_between" then
    some ⟨"column_stddev_between", true, columnStddevBetween_execute⟩
  else if ty = "column_unique_proportion_between" then
    some ⟨"column_unique_proportion_between", true,
      columnUniqueProportionBetween_execute⟩
  else none

/-- Embedding of `TestExecutor._execute_single_test`: an unknown test type is
skipped (no records, no fault); instantiating a column-scoped template without
a truthy column raises (`Except.error`); otherwise the test executes and the
(definition, result) record pair is emitted under the deterministic assertion
URN. -/
def executeSingleTest (registry : String → Option TestClass) (cfg : TestConfig)
    (datasetUrn : String) (nowMillis : Int) (profile : Option DatasetProfile) :
    Except String (List MCP) :=
  match registry cfg.type with
  | none => .ok []
  | some tc =>
    if tc.requiresColumn && !(truthyOptStr cfg.column) then
      .error "column parameter is required"
    else
      let result := tc.run cfg.params cfg.column profile
      let urn := buildAssertionUrn tc.testType
        ⟨cfg.name, datasetUrn, cfg.params, cfg.column⟩
      .ok [⟨urn, .infoA tc.testType⟩, ⟨urn, .resultA nowMillis result⟩]

/-- What the batch loop keeps of a single test's outcome: the records on
success, nothing when the test faulted (the `except ... continue` arm). -/
def recoverRecords : Except String (List MCP) → List MCP
  | .ok l => l
  | .error _ => []

/-- Embedding of `TestExecutor.execute_tests_for_dataset`: filter the
configured tests by `fnmatch` of the dataset URN against their pattern, then
fold the guarded per-test execution over the matching tests, dropping the
records of any test that faults. -/
def executeTestsForDataset (registry : String → Option TestClass)
    (testConfigs : List TestConfig) (datasetUrn : String) (nowMillis : Int)
    (profile : Option DatasetProfile) : List MCP :=
  let matching := testConfigs.filter
    (fun c => globMatch c.dataset_pattern.data datasetUrn.data)
  if matching.isEmpty then []
  else
    matching.foldl (fun mcps cfg =>
      match executeSingleTest registry cfg datasetUrn nowMillis profile with
      | .ok t => mcps ++ t
      | .error _ => mcps) []

theorem foldl_append_flatMap {α β : Type} (g : α → List β) (l : List α)
    (acc : List β) :
    l.foldl (fun r x => r ++ g x) acc = acc ++ l.flatMap g := by
  induction l generalizing acc with
  | nil => simp
  | cons x xs ih => simp [ih]

theorem executeTests_eq_flatMap (registry : String → Option TestClass)
    (testConfigs : List TestConfig) (datasetUrn : String) (nowMillis : Int)
    (profile : Option DatasetProfile) :
    executeTestsForDataset registry testConfigs datasetUrn nowMillis profile =
      (testConfigs.filter
        (fun c => globMatch c.dataset_pattern.data datasetUrn.data)).flatMap
        (fun cfg =>
          recoverRecords (executeSingleTest registry cfg datasetUrn nowMillis
            profile)) := by
  unfold executeTestsForDataset
  dsimp only
  set matching := testConfigs.filter
    (fun c => globMatch c.dataset_pattern.data datasetUrn.data) with hm
  by_cases hemp : matching.isEmpty = true
  · rw [if_pos hemp]
    rw [List.isEmpty_iff] at hemp
    rw [hemp]
    rfl
  · rw [if_neg hemp]
    have hbody : (fun (mcps : List MCP) (cfg : TestConfig) =>
        match executeSingleTest registry cfg datasetUrn nowMillis profile with
        | .ok t => mcps ++ t
        | .error _ => mcps) =
        (fun (mcps : List MCP) (cfg : TestConfig) =>
          mcps ++ recoverRecords
            (executeSingleTest registry cfg datasetUrn nowMillis profile)) := by
      funext mcps cfg
      cases executeSingleTest registry cfg datasetUrn nowMillis profile with
      | ok t => rfl
      | error e => simp [recoverRecords]
    rw [hbody, foldl_append_flatMap]
    rfl

/-- The three configured tests of the C2 batch; test #2 is a column-scoped
test configured without a column, so its template constructor raises. -/
def cfgTestOne : TestConfig :=
  { name := "t1", type := "table_row_count", dataset_pattern := "*",
    params := { min_rows := some 1 } }

def cfgTestTwo : TestConfig :=
  { name := "t2", type := "column_values_not_null", dataset_pattern := "*" }

def cfgTestThree : TestConfig :=
  { name := "t3", type := "table_row_count", dataset_pattern := "*" }

def exProfileC2 : DatasetProfile := { rowCount := some 5 }

def exUrnC2 : String := "urn:li:dataset:(urn:li:dataPlatform:snowflake,db.sch.tbl,PROD)"

/-- Counterexample for C2: in a batch of three matched tests where test #2
faults (its constructor raises for the missing required column), the batch
yields only the record pairs of tests #1 and #3 — four records, not six; the
faulting test's records are omitted entirely rather than recorded with
`success = false`. -/
theorem claim_C2_counterexample_faulting_test_dropped :
    executeSingleTest testRegistry cfgTestTwo exUrnC2 0 (some exProfileC2) =
      .error "column parameter is required" ∧
    executeTestsForDataset testRegistry [cfgTestOne, cfgTestTwo, cfgTestThree]
        exUrnC2 0 (some exProfileC2) =
      recoverRecords (executeSingleTest testRegistry cfgTestOne exUrnC2 0
        (some exProfileC2)) ++
      recoverRecords (executeSingleTest testRegistry cfgTestThree exUrnC2 0
        (some exProfileC2)) ∧
    (executeTestsForDataset testRegistry [cfgTestOne, cfgTestTwo, cfgTestThree]
        exUrnC2 0 (some exProfileC2)).length = 4 :=
  ⟨by rfl, by rfl, by rfl⟩

/-- C2 (amended): the batch is the concatenation, over the matched tests in
order, of each test's records — where a test that faults contributes no
records (it is caught and skipped, so it cannot abort the rest of the batch,
but it is omitted rather than recorded as failed); concretely, the three-test
batch with faulting test #2 produces exactly the records of tests #1 and #3. -/
theorem claim_C2_batch_isolation :
    (∀ (registry : String → Option TestClass) (testConfigs : List TestConfig)
      (datasetUrn : String) (nowMillis : Int) (profile : Option DatasetProfile),
      executeTestsForDataset registry testConfigs datasetUrn nowMillis profile =
        (testConfigs.filter
          (fun c => globMatch c.dataset_pattern.data datasetUrn.data)).flatMap
          (fun cfg =>
            recoverRecords (executeSingleTest registry cfg datasetUrn nowMillis
              profile))) ∧
    executeTestsForDataset testRegistry [cfgTestOne, cfgTestTwo, cfgTestThree]
        exUrnC2 0 (some exProfileC2) =
      recoverRecords (executeSingleTest testRegistry cfgTestOne exUrnC2 0
        (some exProfileC2)) ++
      recoverRecords (executeSingleTest testRegistry cfgTestThree exUrnC2 0
        (some exProfileC2)) :=
  ⟨executeTests_eq_flatMap, by rfl⟩

/-- C9: the assertion URN is a pure function of the test type, params, dataset
URN and column: it ignores the configured test name, and the URNs of the
emitted record pair do not depend on the profile contents, the execution
timestamp, or (hence) the test outcome. -/
theorem claim_C9_assertion_urn_deterministic :
    (∀ (testType nameOne nameTwo dataset : String) (params : TestParams)
      (column : Option String),
      buildAssertionUrn testType ⟨nameOne, dataset, params, column⟩ =
        buildAssertionUrn testType ⟨nameTwo, dataset, params, column⟩) ∧
    (∀ (registry : String → Option TestClass) (cfg : TestConfig)
      (datasetUrn : String) (nowOne nowTwo : Int)
      (profOne profTwo : Option DatasetProfile),
      (recoverRecords (executeSingleTest registry cfg datasetUrn nowOne
        profOne)).map MCP.entityUrn =
      (recoverRecords (executeSingleTest registry cfg datasetUrn nowTwo
        profTwo)).map MCP.entityUrn) := by
  constructor
  · intro testType nameOne nameTwo dataset params column
    rfl
  · intro registry cfg datasetUrn nowOne nowTwo profOne profTwo
    unfold executeSingleTest
    cases registry cfg.type with
    | none => rfl
    | some tc =>
      by_cases hc : (tc.requiresColumn && !(truthyOptStr cfg.column)) = true
      · simp [hc, recoverRecords]
      · simp [hc, recoverRecords]
